import Mathlib

/-!
Verification of the key-ring subsystem of a browser-extension wallet.

The TypeScript sources are shallowly embedded: asynchronous collaborator
calls (chain registry, interaction service, key ring internals, hardware
signer, network) become oracle fields of explicit environment structures,
thrown exceptions become `Except Err`, and the order in which collaborators
are invoked is recorded in an explicit event trace so that temporal
statements ("check X runs before Y") become statements about traces.
-/

set_option linter.unusedVariables false

namespace Keplr

/-! ### Data model -/

/-- Lifecycle states of the key ring (`KeyRingStatus` in keyring.ts). -/
inductive KeyRingStatus
  | NOTLOADED
  | EMPTY
  | LOCKED
  | UNLOCKED
deriving DecidableEq, Repr

/-- Error taxonomy of the subsystem; each constructor corresponds to one
thrown `Error` in the sources (or one error named by the spec). -/
inductive Err
  | addressMismatch
  | keyDoesNotExist
  | originNotAllowed
  | chainUnknown
  | keyRingNotUnlocked
  | nullApprovedConfig
  | userRejected
  | walletNotLoaded
  | noMsgToSend
  | wrongPassword
  | indexOutOfRange
  | coinTypeAlreadySet
  | signFailed
  | accountFetchFailed
  | broadcastFailed
deriving DecidableEq, Repr

/-- A derived key: public key bytes and raw address bytes
(`Key` in keyring.ts). -/
structure Key where
  pubKey : List Nat
  address : List Nat
deriving DecidableEq, Repr

/-- The part of `ChainInfo` the key-ring subsystem reads: the bech32
account prefix and the chain's default coin type. -/
structure ChainInfo where
  bech32PrefixAccAddr : String
  coinType : Nat
deriving DecidableEq, Repr

/-- Collaborator invocations, recorded in order as an explicit trace. -/
inductive Event
  | accessChecked
  | addressChecked
  | signRequested
  | configRequested
  | pendingCreated
  | waitApproveCalled
  | restored
  | signed
deriving DecidableEq, Repr

/-! ### `KeyRingService.checkBech32Address` and the request-sign handler -/

/-- Collaborators of `KeyRingService.checkBech32Address`: `this.getKey`,
`chainsService.getChainInfo`, and the external library encoder
`new Bech32Address(bytes).toBech32(hrp)`. -/
structure CheckEnv where
  getKey : String → Except Err Key
  getChainInfo : String → Except Err ChainInfo
  toBech32 : List Nat → String → String

/-- Embedding of `KeyRingService.checkBech32Address` (src/unnamed/part_004,
lines 165-176): derive the active key, encode its raw address under the
chain's account prefix, and throw on mismatch with the supplied address. -/
def checkBech32Address (env : CheckEnv) (chainId bech32Address : String) :
    Except Err Unit :=
  match env.getKey chainId with
  | Except.error e => Except.error e
  | Except.ok key =>
    match env.getChainInfo chainId with
    | Except.error e => Except.error e
    | Except.ok info =>
      if bech32Address ≠ env.toBech32 key.address info.bech32PrefixAccAddr then
        Except.error Err.addressMismatch
      else
        Except.ok ()

/-- Collaborators of the request-sign message handler: the origin-permission
check and the keeper's `requestSign` (the latter is an oracle that reports
its own sub-trace, in which any Pending-record creation would appear). -/
structure SignHandlerEnv where
  checkAccessOrigin : String → String → Except Err Unit
  check : CheckEnv
  requestSign : String → List Nat → Except Err (List Nat) × List Event

/-- Embedding of `handleRequestSignMsg` (src/unnamed/part_000, lines
365-390): origin-permission check, then the bech32-address check, then the
approval-gated signing request. -/
def handleRequestSignMsg (env : SignHandlerEnv)
    (chainId origin bech32Address : String) (message : List Nat) :
    Except Err (List Nat) × List Event :=
  match env.checkAccessOrigin chainId origin with
  | Except.error e => (Except.error e, [Event.accessChecked])
  | Except.ok _ =>
    match checkBech32Address env.check chainId bech32Address with
    | Except.error e =>
      (Except.error e, [Event.accessChecked, Event.addressChecked])
    | Except.ok _ =>
      let r := env.requestSign chainId message
      (r.1, [Event.accessChecked, Event.addressChecked, Event.signRequested]
        ++ r.2)

/-- Collaborators of the request-tx-config message handler, over an opaque
config payload type. -/
structure TxConfigHandlerEnv (α : Type) where
  checkAccessOrigin : String → String → Except Err Unit
  requestTxBuilderConfig : α → Except Err α × List Event

/-- Embedding of `handleRequestTxBuilderConfigMsg` (src/unnamed/part_000,
lines 303-329): origin-permission check on the config's chain id, then the
approval-gated config request. -/
def handleRequestTxBuilderConfigMsg {α : Type} (env : TxConfigHandlerEnv α)
    (configChainId origin : String) (config : α) :
    Except Err α × List Event :=
  match env.checkAccessOrigin configChainId origin with
  | Except.error e => (Except.error e, [Event.accessChecked])
  | Except.ok _ =>
    let r := env.requestTxBuilderConfig config
    (r.1, [Event.accessChecked, Event.configRequested] ++ r.2)

/-! ### `KeyRingService.enable` -/

/-- Collaborators of `KeyRingService.enable`: the status the ring has after
`keyRing.restore()` (per the spec, EMPTY or LOCKED depending on whether
persisted records exist), and the outcome of the approval-gated `/unlock`
interaction (an error if rejected, else the ring status once it resolves). -/
structure EnableEnv where
  restoredStatus : KeyRingStatus
  unlockInteraction : Except Err KeyRingStatus

/-- Embedding of `KeyRingService.enable` (src/unnamed/part_004, lines
139-159): throw if EMPTY; restore if NOTLOADED; if then LOCKED, wait for the
`/unlock` interaction and return the resulting status; else return the
current status. -/
def KeyRingService.enable (env : EnableEnv) (status : KeyRingStatus) :
    Except Err KeyRingStatus × List Event :=
  if status = KeyRingStatus.EMPTY then
    (Except.error Err.keyDoesNotExist, [])
  else
    let restoreTrace :=
      if status = KeyRingStatus.NOTLOADED then [Event.restored] else []
    let status1 :=
      if status = KeyRingStatus.NOTLOADED then env.restoredStatus else status
    if status1 = KeyRingStatus.LOCKED then
      match env.unlockInteraction with
      | Except.error e =>
        (Except.error e, restoreTrace ++ [Event.waitApproveCalled])
      | Except.ok s2 => (Except.ok s2, restoreTrace ++ [Event.waitApproveCalled])
    else
      (Except.ok status1, restoreTrace)

/-! ### Approval-gated `requestTxBuilderConfig` and `requestSign` -/

/-- Embedding of `KeyRingService.requestTxBuilderConfig`
(src/unnamed/part_004, lines 249-269): with `skipApprove` the submitted
config is returned unchanged; otherwise the interaction collaborator is
awaited and a null resolution is an error. `waitApprove` is the
collaborator's resolution for this request. -/
def KeyRingService.requestTxBuilderConfig {α : Type}
    (waitApprove : Except Err (Option α)) (config : α) (skipApprove : Bool) :
    Except Err α × List Event :=
  if skipApprove then
    (Except.ok config, [])
  else
    match waitApprove with
    | Except.error e => (Except.error e, [Event.waitApproveCalled])
    | Except.ok none =>
      (Except.error Err.nullApprovedConfig, [Event.waitApproveCalled])
    | Except.ok (some result) => (Except.ok result, [Event.waitApproveCalled])

/-- Collaborators of `KeyRingService.requestSign`: the interaction
collaborator, the chain registry's default coin type, and the key ring's
`sign` (as a function of the resolved coin type and the message). -/
structure RequestSignEnv where
  waitApprove : Except Err Unit
  getChainCoinType : Except Err Nat
  sign : Nat → List Nat → Except Err (List Nat)

/-- Embedding of `KeyRingService.requestSign` (src/unnamed/part_004, lines
275-306): with `skipApprove` the message is signed immediately; otherwise
the interaction collaborator is awaited first. -/
def KeyRingService.requestSign (env : RequestSignEnv) (message : List Nat)
    (skipApprove : Bool) : Except Err (List Nat) × List Event :=
  if skipApprove then
    match env.getChainCoinType with
    | Except.error e => (Except.error e, [])
    | Except.ok ct => (env.sign ct message, [Event.signed])
  else
    match env.waitApprove with
    | Except.error e => (Except.error e, [Event.waitApproveCalled])
    | Except.ok _ =>
      match env.getChainCoinType with
      | Except.error e => (Except.error e, [Event.waitApproveCalled])
      | Except.ok ct =>
        (env.sign ct message, [Event.waitApproveCalled, Event.signed])

/-! ### Per-keystore coin-type overrides -/

/-- One key-store record, reduced to the field the coin-type claims read:
its per-chain coin-type override table. -/
structure KeyStore where
  coinTypes : List (String × Nat)
deriving DecidableEq, Repr

/-- Lookup of a per-chain coin-type override in a keystore's table. -/
def lookupCoinType : List (String × Nat) → String → Option Nat
  | [], _ => none
  | (c, t) :: rest, chainId =>
    if c = chainId then some t else lookupCoinType rest chainId

/-- Embedding of `KeyRingService.isKeyStoreCoinTypeSet` via the keystore's
override table. -/
def KeyRing.isKeyStoreCoinTypeSet (ks : KeyStore) (chainId : String) : Bool :=
  (lookupCoinType ks.coinTypes chainId).isSome

/-- Modelled from the spec: `KeyRing.setKeyStoreCoinType` (keyring.ts is not
among the provided sources; `KeyRingService.setKeyStoreCoinType` delegates
to it). Per §4.4 it "fails if already set for that keystore+chain
(idempotent-set-once policy)", else records the override. -/
def KeyRing.setKeyStoreCoinType (ks : KeyStore) (chainId : String)
    (coinType : Nat) : Except Err KeyStore :=
  if KeyRing.isKeyStoreCoinTypeSet ks chainId then
    Except.error Err.coinTypeAlreadySet
  else
    Except.ok { coinTypes := (chainId, coinType) :: ks.coinTypes }

/-- Modelled from the spec: coin-type resolution inside `KeyRing.getKey`
(keyring.ts is not among the provided sources). Per §4.4 the key is derived
"using the coin type resolved for chainId (explicit per-chain override if
set, else the chain's default coin type)"; the default is the value the
service fetches from `chainsService.getChainCoinType`. -/
def KeyRing.resolveCoinType (ks : KeyStore) (chainId : String)
    (defaultCoinType : Nat) : Nat :=
  match lookupCoinType ks.coinTypes chainId with
  | some t => t
  | none => defaultCoinType

/-- Embedding of `KeyRingService.getKey` (src/unnamed/part_004, lines
238-243) over the spec-modelled `KeyRing.getKey`: derivation (an oracle
`deriveKey` from coin type to key) at the resolved coin type. -/
def KeyRingService.getKey (deriveKey : Nat → Key) (ks : KeyStore)
    (defaultCoinType : Nat) (chainId : String) : Key :=
  deriveKey (KeyRing.resolveCoinType ks chainId defaultCoinType)

/-! ### Multi-key-store deletion -/

/-- The multi-key-store portion of the key ring: the ordered record
collection, the selected index, and the lifecycle status. -/
structure MultiKeyStoreState where
  stores : List KeyStore
  selected : Nat
  status : KeyRingStatus
deriving DecidableEq, Repr

/-- Modelled from the spec: `KeyRing.deleteKeyRing` (keyring.ts is not among
the provided sources; `KeyRingService.deleteKeyRing` delegates to it). Per
§4.3 deletion requires the password (`WrongPassword` otherwise) and a valid
index (`IndexOutOfRange`); per §3 and §8, "deleting the selected record
re-selects index 0 or marks the ring empty" and deleting the last record
transitions the ring to EMPTY; deleting a record before the selected one
shifts the selected index so it keeps referring to the same record. -/
def KeyRing.deleteKeyRing (st : MultiKeyStoreState) (index : Nat)
    (passwordOk : Bool) : Except Err MultiKeyStoreState :=
  if passwordOk then
    if index < st.stores.length then
      let stores1 := st.stores.eraseIdx index
      if stores1.length = 0 then
        Except.ok { stores := stores1, selected := 0,
                    status := KeyRingStatus.EMPTY }
      else
        let selected1 :=
          if st.selected = index then 0
          else if index < st.selected then st.selected - 1
          else st.selected
        Except.ok { stores := stores1, selected := selected1,
                    status := st.status }
    else
      Except.error Err.indexOutOfRange
  else
    Except.error Err.wrongPassword

/-- The MultiKeyStore invariant (§3): the selected index refers to an
existing record whenever the collection is non-empty. -/
def MultiKeyStoreState.wf (st : MultiKeyStoreState) : Prop :=
  st.stores ≠ [] → st.selected < st.stores.length

instance (st : MultiKeyStoreState) : Decidable st.wf := by
  unfold MultiKeyStoreState.wf
  infer_instance

/-! ### BIP44 selectables -/

/-- A BIP44 derivation path (`BIP44` in @keplr/types). -/
structure BIP44 where
  coinType : Nat
  account : Nat
  change : Nat
  addressIndex : Nat
deriving DecidableEq, Repr

/-- One entry of the result of `getKeyStoreBIP44Selectables`. -/
structure Selectable where
  path : BIP44
  bech32Address : String
deriving DecidableEq, Repr

/-- The result-accumulating loop of `getKeyStoreBIP44Selectables`: for each
path in order, derive the key from that path's coin type and encode its
address under the chain's account prefix. -/
def selectablesOfPaths (getKeyFromCoinType : Nat → Except Err Key)
    (enc : List Nat → String → String) (hrp : String) :
    List BIP44 → Except Err (List Selectable)
  | [] => Except.ok []
  | p :: rest =>
    match getKeyFromCoinType p.coinType with
    | Except.error e => Except.error e
    | Except.ok key =>
      match selectablesOfPaths getKeyFromCoinType enc hrp rest with
      | Except.error e => Except.error e
      | Except.ok tail =>
        Except.ok ({ path := p, bech32Address := enc key.address hrp } :: tail)

/-- Embedding of `KeyRingService.getKeyStoreBIP44Selectables`
(src/unnamed/part_004, lines 362-386): empty result if the coin type is
already set for this chain, else one entry per requested path. The chain
registry, the key ring's `getKeyFromCoinType` and the bech32 encoder are
oracles. -/
def KeyRingService.getKeyStoreBIP44Selectables (isCoinTypeSet : Bool)
    (getChainInfo : Except Err ChainInfo)
    (getKeyFromCoinType : Nat → Except Err Key)
    (enc : List Nat → String → String) (paths : List BIP44) :
    Except Err (List Selectable) :=
  if isCoinTypeSet then
    Except.ok []
  else
    match getChainInfo with
    | Except.error e => Except.error e
    | Except.ok info =>
      selectablesOfPaths getKeyFromCoinType enc info.bech32PrefixAccAddr paths

/-! ### FeeConfig -/

/-- Fee presets (`FeeType` in packages/hooks/src/tx/types.ts). -/
inductive FeeType
  | high
  | average
  | low
deriving DecidableEq, Repr

/-- A primitive coin amount (`CoinPrimitive` in @keplr/stores). -/
structure CoinPrimitive where
  denom : String
  amount : String
deriving DecidableEq, Repr

/-- A fee currency, reduced to the field `FeeConfig` reads. -/
structure Currency where
  coinMinimalDenom : String
deriving DecidableEq, Repr

/-- The observable state of `FeeConfig`
(packages/hooks/src/tx/types.ts): `_feeType` and `_manualFee`. -/
structure FeeConfigState where
  feeType : Option FeeType
  manualFee : Option CoinPrimitive
deriving DecidableEq, Repr

/-- Initial `FeeConfig` state: both fields undefined. -/
def FeeConfig.initial : FeeConfigState := { feeType := none, manualFee := none }

/-- Embedding of `FeeConfig.setFeeType` (lines 94-98): sets the fee type and
clears the manual fee. -/
def FeeConfig.setFeeType (s : FeeConfigState) (ft : Option FeeType) :
    FeeConfigState :=
  { feeType := ft, manualFee := none }

/-- Embedding of `FeeConfig.setManualFee` (lines 104-108): sets the manual
fee and clears the fee type. -/
def FeeConfig.setManualFee (s : FeeConfigState) (fee : CoinPrimitive) :
    FeeConfigState :=
  { feeType := none, manualFee := some fee }

/-- An operation on a `FeeConfig`. -/
inductive FeeOp
  | setType (ft : Option FeeType)
  | setManual (fee : CoinPrimitive)
deriving DecidableEq, Repr

/-- Apply one `FeeConfig` operation. -/
def FeeConfig.applyOp (s : FeeConfigState) : FeeOp → FeeConfigState
  | FeeOp.setType ft => FeeConfig.setFeeType s ft
  | FeeOp.setManual fee => FeeConfig.setManualFee s fee

/-- The state after a sequence of operations from the initial state. -/
def FeeConfig.run (ops : List FeeOp) : FeeConfigState :=
  ops.foldl FeeConfig.applyOp FeeConfig.initial

/-- The `feeCurrency` getter (lines 114-116): the head of the chain's fee
currencies. -/
def FeeConfig.feeCurrency (feeCurrencies : List Currency) : Option Currency :=
  feeCurrencies.head?

/-- Embedding of `FeeConfig.getFeePrimitive` (lines 147-163): undefined when
there is no fee currency; else the manual fee if set; else the fee computed
from the fee type if set; else undefined. `getFeeTypePrimitive` (which reads
external chain info and gas config) is an oracle. -/
def FeeConfig.getFeePrimitive (feeCurrencies : List Currency)
    (getFeeTypePrimitive : FeeType → CoinPrimitive) (s : FeeConfigState) :
    Option CoinPrimitive :=
  match FeeConfig.feeCurrency feeCurrencies with
  | none => none
  | some _ =>
    match s.manualFee with
    | some f => some f
    | none =>
      match s.feeType with
      | some ft => some (getFeeTypePrimitive ft)
      | none => none

/-! ### AccountStoreInner: broadcastMsgs and sendMsgs -/

/-- Wallet lifecycle status (`WalletStatus` in
packages/stores/src/account/index.ts). -/
inductive WalletStatus
  | Loading
  | Loaded
  | NotExist
deriving DecidableEq, Repr

/-- An opaque amino message. -/
structure Msg where
  type : String
  value : String
deriving DecidableEq, Repr

/-- A standard fee (`StdFee` of @cosmjs/launchpad). -/
structure StdFee where
  amount : List CoinPrimitive
  gas : String
deriving DecidableEq, Repr

/-- The on-chain account data fetched before signing. -/
structure BaseAccount where
  accountNumber : Nat
  sequence : Nat
deriving DecidableEq, Repr

/-- A sign doc (`makeSignDoc` of @cosmjs/launchpad). -/
structure SignDoc where
  msgs : List Msg
  fee : StdFee
  chainId : String
  memo : String
  accountNumber : String
  sequence : String
deriving DecidableEq, Repr

/-- Construction of a sign doc from its parts. -/
def makeSignDoc (msgs : List Msg) (fee : StdFee) (chainId memo : String)
    (accountNumber sequence : String) : SignDoc :=
  { msgs := msgs, fee := fee, chainId := chainId, memo := memo,
    accountNumber := accountNumber, sequence := sequence }

/-- The wallet's response to a sign request: the (possibly amended) signed
doc and the signature. -/
structure SignResponse where
  signed : SignDoc
  signature : List Nat
deriving DecidableEq, Repr

/-- A signed standard transaction (`makeStdTx` of @cosmjs/launchpad). -/
structure StdTx where
  msg : List Msg
  fee : StdFee
  signatures : List (List Nat)
  memo : String
deriving DecidableEq, Repr

/-- Construction of a signed transaction from a sign response. -/
def makeStdTx (signed : SignDoc) (signature : List Nat) : StdTx :=
  { msg := signed.msgs, fee := signed.fee, signatures := [signature],
    memo := signed.memo }

/-- Transaction-pipeline collaborator invocations, in order. -/
inductive TxEvent
  | fetchedAccount
  | signedTx
  | broadcasted
deriving DecidableEq, Repr

/-- Collaborators of `AccountStoreInner.broadcastMsgs`:
`BaseAccount.fetchFromRest`, `keplr.sign`, and `keplr.sendTx`. -/
structure BroadcastEnv where
  fetchAccount : Except Err BaseAccount
  sign : SignDoc → Except Err SignResponse
  sendTx : StdTx → String → Except Err (List Nat)

/-- The mutable account-store state the claims read: the `_isSendingMsg`
flag (`none` models the literal `false`). -/
structure AccountState where
  isSendingMsg : Option String
deriving DecidableEq, Repr

/-- Embedding of `AccountStoreInner.broadcastMsgs`
(packages/stores/src/account/index.ts, lines 762-802): guard on wallet
status and non-empty message list, then fetch the account, build and sign
the sign doc, and broadcast the signed transaction. -/
def broadcastMsgs (env : BroadcastEnv) (walletStatus : WalletStatus)
    (chainId : String) (msgs : List Msg) (fee : StdFee) (memo mode : String) :
    Except Err (List Nat) × List TxEvent :=
  if walletStatus ≠ WalletStatus.Loaded then
    (Except.error Err.walletNotLoaded, [])
  else if msgs.length = 0 then
    (Except.error Err.noMsgToSend, [])
  else
    match env.fetchAccount with
    | Except.error e => (Except.error e, [TxEvent.fetchedAccount])
    | Except.ok account =>
      let signDoc := makeSignDoc msgs fee chainId memo
        (toString account.accountNumber) (toString account.sequence)
      match env.sign signDoc with
      | Except.error e =>
        (Except.error e, [TxEvent.fetchedAccount, TxEvent.signedTx])
      | Except.ok resp =>
        let signedTx := makeStdTx resp.signed resp.signature
        match env.sendTx signedTx mode with
        | Except.error e =>
          (Except.error e,
           [TxEvent.fetchedAccount, TxEvent.signedTx, TxEvent.broadcasted])
        | Except.ok txHash =>
          (Except.ok txHash,
           [TxEvent.fetchedAccount, TxEvent.signedTx, TxEvent.broadcasted])

/-- Embedding of `AccountStoreInner.sendMsgs` (lines 199-219, the part up to
the broadcast): set `_isSendingMsg` to the message type, try to broadcast,
and on a broadcast error reset `_isSendingMsg` to false and rethrow. On
success the flag stays set (it is cleared later by the tx tracer). -/
def sendMsgs (env : BroadcastEnv) (walletStatus : WalletStatus)
    (chainId mode : String) (s : AccountState) (type : String)
    (msgs : List Msg) (fee : StdFee) (memo : String) :
    AccountState × Except Err (List Nat) × List TxEvent :=
  let s1 : AccountState := { isSendingMsg := some type }
  match broadcastMsgs env walletStatus chainId msgs fee memo mode with
  | (Except.error e, tr) => ({ isSendingMsg := none }, Except.error e, tr)
  | (Except.ok txHash, tr) => (s1, Except.ok txHash, tr)

/-! ### Sample environments for concrete evaluations -/

/-- A concrete check environment: one key with address bytes `[1, 2, 3]`,
a chain with account prefix "cosmos", and an injective-enough encoder. -/
def sampleCheckEnv : CheckEnv :=
  { getKey := fun _ => Except.ok { pubKey := [7], address := [1, 2, 3] },
    getChainInfo := fun _ =>
      Except.ok { bech32PrefixAccAddr := "cosmos", coinType := 118 },
    toBech32 := fun a h => h ++ toString a.length }

/-- A concrete request-sign handler environment whose origin check passes. -/
def sampleSignEnv : SignHandlerEnv :=
  { checkAccessOrigin := fun _ _ => Except.ok (),
    check := sampleCheckEnv,
    requestSign := fun _ _ => (Except.ok [9], [Event.pendingCreated]) }

/-- A concrete request-sign handler environment whose origin check fails. -/
def sampleDeniedSignEnv : SignHandlerEnv :=
  { checkAccessOrigin := fun _ _ => Except.error Err.originNotAllowed,
    check := sampleCheckEnv,
    requestSign := fun _ _ => (Except.ok [9], [Event.pendingCreated]) }

/-- A concrete tx-config handler environment whose origin check fails. -/
def sampleDeniedTxEnv : TxConfigHandlerEnv Nat :=
  { checkAccessOrigin := fun _ _ => Except.error Err.originNotAllowed,
    requestTxBuilderConfig := fun c => (Except.ok c, [Event.pendingCreated]) }

/-- A concrete enable environment: persisted records exist (restore yields
LOCKED) and the unlock interaction resolves with the ring UNLOCKED. -/
def sampleEnableEnv : EnableEnv :=
  { restoredStatus := KeyRingStatus.LOCKED,
    unlockInteraction := Except.ok KeyRingStatus.UNLOCKED }

/-- A concrete request-sign service environment. -/
def sampleRequestSignEnv : RequestSignEnv :=
  { waitApprove := Except.ok (),
    getChainCoinType := Except.ok 118,
    sign := fun ct m => Except.ok (ct :: m) }

/-- A two-record multi-key-store with record 0 selected. -/
def sampleTwoStores : MultiKeyStoreState :=
  { stores := [{ coinTypes := [] }, { coinTypes := [("a", 1)] }],
    selected := 0, status := KeyRingStatus.UNLOCKED }

/-- A one-record multi-key-store with record 0 selected. -/
def sampleOneStore : MultiKeyStoreState :=
  { stores := [{ coinTypes := [] }], selected := 0,
    status := KeyRingStatus.UNLOCKED }

/-- The state left by deleting record 0 from `sampleTwoStores`. -/
def sampleTwoStoresAfter : MultiKeyStoreState :=
  { stores := [{ coinTypes := [("a", 1)] }], selected := 0,
    status := KeyRingStatus.UNLOCKED }

/-- The state left by deleting record 0 from `sampleOneStore`. -/
def sampleOneStoreAfter : MultiKeyStoreState :=
  { stores := [], selected := 0, status := KeyRingStatus.EMPTY }

/-- A concrete BIP44 path with coin type 118. -/
def samplePath118 : BIP44 :=
  { coinType := 118, account := 0, change := 0, addressIndex := 0 }

/-- A concrete BIP44 path with coin type 529. -/
def samplePath529 : BIP44 :=
  { coinType := 529, account := 0, change := 0, addressIndex := 0 }

/-- A concrete per-coin-type key oracle. -/
def sampleGetKeyFromCoinType : Nat → Except Err Key :=
  fun ct => Except.ok { pubKey := [], address := [ct, ct] }

/-- The pure key function underlying `sampleGetKeyFromCoinType`. -/
def sampleKeyOf : Nat → Key :=
  fun ct => { pubKey := [], address := [ct, ct] }

/-- A concrete bech32 encoder for samples. -/
def sampleEnc : List Nat → String → String :=
  fun a h => h ++ toString a.length

/-- A concrete manual fee. -/
def sampleFee : CoinPrimitive := { denom := "uatom", amount := "1000" }

/-- A concrete fee currency. -/
def sampleCurrency : Currency := { coinMinimalDenom := "uatom" }

/-- A concrete fee-from-type oracle. -/
def sampleFeeOfType : FeeType → CoinPrimitive :=
  fun _ => { denom := "uatom", amount := "2000" }

/-- A concrete broadcast environment in which every collaborator fails. -/
def sampleBroadcastEnv : BroadcastEnv :=
  { fetchAccount := Except.error Err.accountFetchFailed,
    sign := fun _ => Except.error Err.signFailed,
    sendTx := fun _ _ => Except.error Err.broadcastFailed }

/-- A concrete message. -/
def sampleMsg : Msg := { type := "cosmos-sdk/MsgSend", value := "v" }

/-- A concrete standard fee. -/
def sampleStdFee : StdFee := { amount := [sampleFee], gas := "80000" }

/-! ### Theorems -/

/-- Claim C1: for every chainId and caller-supplied bech32 address,
`checkBech32Address` fails with the address-mismatch error if and only if
the supplied address differs from the bech32 encoding of the active key's
raw address under the chain's account prefix, and in the request-sign
handler this check runs before `requestSign` is invoked, so a signing
request with a mismatched address never reaches the signing step. -/
theorem checkBech32Address_mismatch_iff (env : SignHandlerEnv)
    (chainId origin addr : String) (message : List Nat) (key : Key)
    (info : ChainInfo)
    (hk : env.check.getKey chainId = Except.ok key)
    (hi : env.check.getChainInfo chainId = Except.ok info) :
    (checkBech32Address env.check chainId addr
        = Except.error Err.addressMismatch ↔
      addr ≠ env.check.toBech32 key.address info.bech32PrefixAccAddr) ∧
    (addr = env.check.toBech32 key.address info.bech32PrefixAccAddr →
      checkBech32Address env.check chainId addr = Except.ok ()) ∧
    (addr ≠ env.check.toBech32 key.address info.bech32PrefixAccAddr →
      Event.signRequested ∉
        (handleRequestSignMsg env chainId origin addr message).2 ∧
      ∃ e, (handleRequestSignMsg env chainId origin addr message).1
        = Except.error e) := by
  have hfail : addr ≠ env.check.toBech32 key.address info.bech32PrefixAccAddr →
      checkBech32Address env.check chainId addr
        = Except.error Err.addressMismatch := by
    intro hm
    simp [checkBech32Address, hk, hi, hm]
  refine ⟨?_, ?_, ?_⟩
  · constructor
    · intro h
      by_cases hm : addr = env.check.toBech32 key.address info.bech32PrefixAccAddr
      · simp [checkBech32Address, hk, hi, hm] at h
      · exact hm
    · exact hfail
  · intro hm
    simp [checkBech32Address, hk, hi, hm]
  · intro hm
    cases hacc : env.checkAccessOrigin chainId origin with
    | error e =>
      refine ⟨?_, e, ?_⟩ <;> simp [handleRequestSignMsg, hacc]
    | ok u =>
      refine ⟨?_, Err.addressMismatch, ?_⟩ <;>
        simp [handleRequestSignMsg, hacc, hfail hm]

/-- Witness for C1: with a concrete environment and the mismatched address
"nope", the check fails with the address-mismatch error and the handler's
trace never reaches the signing step. -/
theorem checkBech32Address_mismatch_iff_witness :
    checkBech32Address sampleSignEnv.check "cosmoshub-4" "nope"
      = Except.error Err.addressMismatch ∧
    Event.signRequested ∉
      (handleRequestSignMsg sampleSignEnv "cosmoshub-4" "https://app.example"
        "nope" [4, 5]).2 := by
  have h := checkBech32Address_mismatch_iff sampleSignEnv "cosmoshub-4"
    "https://app.example" "nope" [4, 5]
    { pubKey := [7], address := [1, 2, 3] }
    { bech32PrefixAccAddr := "cosmos", coinType := 118 } rfl rfl
  have hm : "nope"
      ≠ sampleSignEnv.check.toBech32 [1, 2, 3] "cosmos" := by decide
  exact ⟨h.1.mpr hm, (h.2.2 hm).1⟩

/-- Claim C3: for every incoming request-sign and request-tx-config message,
the origin-permission check is performed before a Pending approval request
is created: if the origin is not allowed, the handler throws the
origin-check error and no Pending request appears in the trace. -/
theorem origin_check_before_pending {α : Type} (senv : SignHandlerEnv)
    (tenv : TxConfigHandlerEnv α) (chainId origin addr : String)
    (message : List Nat) (config : α) (e1 e2 : Err)
    (hS : senv.checkAccessOrigin chainId origin = Except.error e1)
    (hT : tenv.checkAccessOrigin chainId origin = Except.error e2) :
    handleRequestSignMsg senv chainId origin addr message
      = (Except.error e1, [Event.accessChecked]) ∧
    Event.pendingCreated ∉
      (handleRequestSignMsg senv chainId origin addr message).2 ∧
    handleRequestTxBuilderConfigMsg tenv chainId origin config
      = (Except.error e2, [Event.accessChecked]) ∧
    Event.pendingCreated ∉
      (handleRequestTxBuilderConfigMsg tenv chainId origin config).2 := by
  refine ⟨?_, ?_, ?_, ?_⟩ <;>
    simp [handleRequestSignMsg, handleRequestTxBuilderConfigMsg, hS, hT]

/-- Witness for C3: with concrete environments whose origin check denies the
origin, both handlers throw and record no Pending request. -/
theorem origin_check_before_pending_witness :
    handleRequestSignMsg sampleDeniedSignEnv "cosmoshub-4"
        "https://evil.example" "addr" [1]
      = (Except.error Err.originNotAllowed, [Event.accessChecked]) ∧
    Event.pendingCreated ∉
      (handleRequestSignMsg sampleDeniedSignEnv "cosmoshub-4"
        "https://evil.example" "addr" [1]).2 ∧
    handleRequestTxBuilderConfigMsg sampleDeniedTxEnv "cosmoshub-4"
        "https://evil.example" 42
      = (Except.error Err.originNotAllowed, [Event.accessChecked]) ∧
    Event.pendingCreated ∉
      (handleRequestTxBuilderConfigMsg sampleDeniedTxEnv "cosmoshub-4"
        "https://evil.example" 42).2 :=
  origin_check_before_pending sampleDeniedSignEnv sampleDeniedTxEnv
    "cosmoshub-4" "https://evil.example" "addr" [1] 42
    Err.originNotAllowed Err.originNotAllowed rfl rfl

/-- Claim C4: `requestTxBuilderConfig` with `skipApprove` returns the
submitted config unchanged without invoking the interaction collaborator,
and `requestSign` with `skipApprove` produces the signature immediately
without invoking the interaction collaborator. -/
theorem skip_approve_no_interaction {α : Type} (waitC : Except Err (Option α))
    (config : α) (env : RequestSignEnv) (message : List Nat) (ct : Nat)
    (hct : env.getChainCoinType = Except.ok ct) :
    KeyRingService.requestTxBuilderConfig waitC config true
      = (Except.ok config, []) ∧
    Event.waitApproveCalled ∉
      (KeyRingService.requestTxBuilderConfig waitC config true).2 ∧
    KeyRingService.requestSign env message true
      = (env.sign ct message, [Event.signed]) ∧
    Event.waitApproveCalled ∉ (KeyRingService.requestSign env message true).2 := by
  refine ⟨?_, ?_, ?_, ?_⟩ <;>
    simp [KeyRingService.requestTxBuilderConfig, KeyRingService.requestSign,
      hct]

/-- Witness for C4: with a concrete environment, `skipApprove` returns the
config unchanged and signs immediately, with no interaction event. -/
theorem skip_approve_no_interaction_witness :
    KeyRingService.requestTxBuilderConfig (Except.ok (some 7)) 42 true
      = (Except.ok 42, []) ∧
    Event.waitApproveCalled ∉
      (KeyRingService.requestTxBuilderConfig (Except.ok (some 7)) 42 true).2 ∧
    KeyRingService.requestSign sampleRequestSignEnv [4, 5] true
      = (sampleRequestSignEnv.sign 118 [4, 5], [Event.signed]) ∧
    Event.waitApproveCalled ∉
      (KeyRingService.requestSign sampleRequestSignEnv [4, 5] true).2 :=
  skip_approve_no_interaction (Except.ok (some 7)) 42 sampleRequestSignEnv
    [4, 5] 118 rfl

/-- Claim C5: when a pending tx-config request is approved, the original
`requestTxBuilderConfig` caller receives exactly the payload resolved by the
interaction collaborator; if the collaborator resolves with a null payload,
`requestTxBuilderConfig` fails instead of returning null; a rejection error
propagates. -/
theorem tx_config_approved_payload {α : Type} (config result : α) (e : Err) :
    KeyRingService.requestTxBuilderConfig (Except.ok (some result)) config
        false
      = (Except.ok result, [Event.waitApproveCalled]) ∧
    KeyRingService.requestTxBuilderConfig (Except.ok (none : Option α)) config
        false
      = (Except.error Err.nullApprovedConfig, [Event.waitApproveCalled]) ∧
    KeyRingService.requestTxBuilderConfig
        (Except.error e : Except Err (Option α)) config false
      = (Except.error e, [Event.waitApproveCalled]) := by
  exact ⟨rfl, rfl, rfl⟩

/-- Counterexample for C2: starting from NOTLOADED with empty persistence
(restore yields EMPTY), `enable` neither throws nor returns a non-EMPTY
status — it returns the status EMPTY, because the EMPTY guard runs before
the restore and is not re-run afterwards. -/
theorem enable_notloaded_empty_counterexample :
    (KeyRingService.enable
        { restoredStatus := KeyRingStatus.EMPTY,
          unlockInteraction := Except.ok KeyRingStatus.UNLOCKED }
        KeyRingStatus.NOTLOADED).1
      = Except.ok KeyRingStatus.EMPTY := by rfl

/-- Claim C2 (amended): `enable` behaves per the state machine — EMPTY fails
with the no-key error; NOTLOADED restores first and then proceeds on the
restored status; LOCKED waits for the approval-gated unlock interaction and
returns its resulting status; UNLOCKED is a no-op returning the current
status. For every starting state other than NOTLOADED, `enable` either
throws or (assuming the unlock interaction never leaves the ring empty)
returns a status that is not EMPTY; starting from NOTLOADED with empty
persistence, `enable` returns EMPTY without throwing. -/
theorem enable_state_machine (env : EnableEnv)
    (hU : ∀ st, env.unlockInteraction = Except.ok st →
      st ≠ KeyRingStatus.EMPTY) :
    KeyRingService.enable env KeyRingStatus.EMPTY
      = (Except.error Err.keyDoesNotExist, []) ∧
    KeyRingService.enable env KeyRingStatus.UNLOCKED
      = (Except.ok KeyRingStatus.UNLOCKED, []) ∧
    (∀ e, env.unlockInteraction = Except.error e →
      KeyRingService.enable env KeyRingStatus.LOCKED
        = (Except.error e, [Event.waitApproveCalled])) ∧
    (∀ st, env.unlockInteraction = Except.ok st →
      KeyRingService.enable env KeyRingStatus.LOCKED
        = (Except.ok st, [Event.waitApproveCalled])) ∧
    (KeyRingService.enable env KeyRingStatus.NOTLOADED).2.head?
      = some Event.restored ∧
    (env.restoredStatus = KeyRingStatus.LOCKED → ∀ e,
      env.unlockInteraction = Except.error e →
      KeyRingService.enable env KeyRingStatus.NOTLOADED
        = (Except.error e, [Event.restored, Event.waitApproveCalled])) ∧
    (env.restoredStatus = KeyRingStatus.LOCKED → ∀ st,
      env.unlockInteraction = Except.ok st →
      KeyRingService.enable env KeyRingStatus.NOTLOADED
        = (Except.ok st, [Event.restored, Event.waitApproveCalled])) ∧
    (env.restoredStatus = KeyRingStatus.EMPTY →
      KeyRingService.enable env KeyRingStatus.NOTLOADED
        = (Except.ok KeyRingStatus.EMPTY, [Event.restored])) ∧
    (∀ s st, s ≠ KeyRingStatus.NOTLOADED →
      (KeyRingService.enable env s).1 = Except.ok st →
      st ≠ KeyRingStatus.EMPTY) := by
  refine ⟨?_, ?_, ?_, ?_, ?_, ?_, ?_, ?_, ?_⟩
  · rfl
  · rfl
  · intro e he
    simp [KeyRingService.enable, he]
  · intro st hst
    simp [KeyRingService.enable, hst]
  · cases hr : env.restoredStatus <;>
      cases hui : env.unlockInteraction <;>
        simp [KeyRingService.enable, hr, hui]
  · intro hr e he
    simp [KeyRingService.enable, hr, he]
  · intro hr st hst
    simp [KeyRingService.enable, hr, hst]
  · intro hr
    simp [KeyRingService.enable, hr]
  · intro s st hs hok
    cases s with
    | NOTLOADED => exact absurd rfl hs
    | EMPTY => simp [KeyRingService.enable] at hok
    | LOCKED =>
      cases hui : env.unlockInteraction with
      | error e => simp [KeyRingService.enable, hui] at hok
      | ok s2 =>
        have : s2 = st := by
          simpa [KeyRingService.enable, hui] using hok
        exact this ▸ hU s2 hui
    | UNLOCKED =>
      have : KeyRingStatus.UNLOCKED = st := by
        simpa [KeyRingService.enable] using hok
      exact this ▸ (by decide)

/-- Witness for C2: with persisted records and an unlock interaction that
resolves with the ring UNLOCKED, `enable` throws on EMPTY, unlocks from
LOCKED, and restores then unlocks from NOTLOADED. -/
theorem enable_state_machine_witness :
    KeyRingService.enable sampleEnableEnv KeyRingStatus.EMPTY
      = (Except.error Err.keyDoesNotExist, []) ∧
    KeyRingService.enable sampleEnableEnv KeyRingStatus.LOCKED
      = (Except.ok KeyRingStatus.UNLOCKED, [Event.waitApproveCalled]) ∧
    KeyRingService.enable sampleEnableEnv KeyRingStatus.NOTLOADED
      = (Except.ok KeyRingStatus.UNLOCKED,
         [Event.restored, Event.waitApproveCalled]) := by
  have h := enable_state_machine sampleEnableEnv
    (by intro st hst; cases hst; decide)
  obtain ⟨h1, h2, h3, h4, h5, h6, h7, h8, h9⟩ := h
  exact ⟨h1, h4 KeyRingStatus.UNLOCKED rfl, h7 rfl KeyRingStatus.UNLOCKED rfl⟩

/-- Claim C6: a first `setKeyStoreCoinType(chainId, t1)` succeeds and any
subsequent `setKeyStoreCoinType(chainId, t2)` for the same keystore and
chain fails, and `getKey(chainId)` before any override derives with the
chain's default coin type. -/
theorem set_key_store_coin_type_once (ks : KeyStore) (chainId : String)
    (t1 t2 defaultCT : Nat) (deriveKey : Nat → Key)
    (h : KeyRing.isKeyStoreCoinTypeSet ks chainId = false) :
    KeyRing.setKeyStoreCoinType ks chainId t1
      = Except.ok { coinTypes := (chainId, t1) :: ks.coinTypes } ∧
    KeyRing.setKeyStoreCoinType
        { coinTypes := (chainId, t1) :: ks.coinTypes } chainId t2
      = Except.error Err.coinTypeAlreadySet ∧
    KeyRingService.getKey deriveKey ks defaultCT chainId
      = deriveKey defaultCT := by
  have hnone : lookupCoinType ks.coinTypes chainId = none := by
    unfold KeyRing.isKeyStoreCoinTypeSet at h
    cases hl : lookupCoinType ks.coinTypes chainId with
    | none => rfl
    | some t => rw [hl] at h; simp at h
  refine ⟨?_, ?_, ?_⟩
  · simp [KeyRing.setKeyStoreCoinType, h]
  · simp [KeyRing.setKeyStoreCoinType, KeyRing.isKeyStoreCoinTypeSet,
      lookupCoinType]
  · simp [KeyRingService.getKey, KeyRing.resolveCoinType, hnone]

/-- Witness for C6: on a fresh keystore, setting coin type 118 for a chain
succeeds, re-setting it to 529 fails, and `getKey` before any override uses
the default coin type 118. -/
theorem set_key_store_coin_type_once_witness :
    KeyRing.setKeyStoreCoinType { coinTypes := [] } "cosmoshub-4" 118
      = Except.ok { coinTypes := [("cosmoshub-4", 118)] } ∧
    KeyRing.setKeyStoreCoinType { coinTypes := [("cosmoshub-4", 118)] }
        "cosmoshub-4" 529
      = Except.error Err.coinTypeAlreadySet ∧
    KeyRingService.getKey (fun ct => { pubKey := [ct], address := [ct] })
        { coinTypes := [] } 118 "cosmoshub-4"
      = { pubKey := [118], address := [118] } := by
  have h := set_key_store_coin_type_once { coinTypes := [] } "cosmoshub-4"
    118 529 118 (fun ct => { pubKey := [ct], address := [ct] }) (by decide)
  exact ⟨h.1, h.2.1, h.2.2⟩

/-- Claim C7: after every successful `deleteKeyRing` the MultiKeyStore
invariant holds — the selected index refers to an existing record whenever
the collection is non-empty; deleting the currently selected record from a
collection of more than one record re-selects a valid remaining index, and
deleting the last remaining record leaves the ring in status EMPTY. -/
theorem delete_key_ring_invariant (st st1 : MultiKeyStoreState) (index : Nat)
    (hwf : st.wf)
    (h : KeyRing.deleteKeyRing st index true = Except.ok st1) :
    st1.wf ∧
    (st1.stores = [] → st1.status = KeyRingStatus.EMPTY) ∧
    (index = st.selected → 1 < st.stores.length →
      st1.selected = 0 ∧ st1.stores ≠ []) ∧
    (st.stores.length = 1 → st1.status = KeyRingStatus.EMPTY) := by
  unfold KeyRing.deleteKeyRing at h
  simp only [if_true] at h
  by_cases hidx : index < st.stores.length
  · rw [if_pos hidx] at h
    have hlen1 : (st.stores.eraseIdx index).length = st.stores.length - 1 := by
      rw [List.length_eraseIdx, if_pos hidx]
    by_cases hemp : (st.stores.eraseIdx index).length = 0
    · rw [if_pos hemp] at h
      injection h with h1
      subst h1
      refine ⟨?_, ?_, ?_, ?_⟩
      · intro hne
        exact absurd (List.eq_nil_of_length_eq_zero hemp) hne
      · intro _
        rfl
      · intro _ hN
        omega
      · intro _
        rfl
    · rw [if_neg hemp] at h
      injection h with h1
      subst h1
      have hsel : st.selected < st.stores.length := by
        apply hwf
        intro hnil
        rw [hnil] at hidx
        simp at hidx
      rw [hlen1] at hemp
      refine ⟨?_, ?_, ?_, ?_⟩
      · intro _
        show (if st.selected = index then 0
            else if index < st.selected then st.selected - 1
            else st.selected)
          < (st.stores.eraseIdx index).length
        rw [hlen1]
        split
        · omega
        · split <;> omega
      · intro hnil
        have hnil2 : st.stores.eraseIdx index = [] := hnil
        rw [hnil2] at hlen1
        simp at hlen1
        omega
      · intro hsel2 hN
        constructor
        · simp [hsel2.symm]
        · intro hnil
          have hnil2 : st.stores.eraseIdx index = [] := hnil
          rw [hnil2] at hlen1
          simp at hlen1
          omega
      · intro hN
        omega
  · rw [if_neg hidx] at h
    exact absurd h (by simp)

/-- Witness for C7: deleting the selected record of a two-record store
re-selects index 0 over a non-empty remainder, and deleting the only record
of a one-record store leaves the ring EMPTY. -/
theorem delete_key_ring_invariant_witness :
    (sampleTwoStoresAfter.selected = 0 ∧ sampleTwoStoresAfter.stores ≠ []) ∧
    sampleOneStoreAfter.status = KeyRingStatus.EMPTY := by
  have h1 := delete_key_ring_invariant sampleTwoStores sampleTwoStoresAfter 0
    (by decide) (by rfl)
  have h2 := delete_key_ring_invariant sampleOneStore sampleOneStoreAfter 0
    (by decide) (by rfl)
  exact ⟨h1.2.2.1 rfl (by decide), h2.2.2.2 (by decide)⟩

/-- Helper: when the key oracle succeeds on every requested path, the
selectables loop returns one entry per path, in order. -/
theorem selectablesOfPaths_all_ok (g : Nat → Except Err Key)
    (keyOf : Nat → Key) (enc : List Nat → String → String) (hrp : String)
    (paths : List BIP44)
    (hg : ∀ p ∈ paths, g p.coinType = Except.ok (keyOf p.coinType)) :
    selectablesOfPaths g enc hrp paths
      = Except.ok (paths.map fun p =>
          { path := p, bech32Address := enc (keyOf p.coinType).address hrp }) := by
  induction paths with
  | nil => rfl
  | cons p rest ih =>
    have hp := hg p (List.mem_cons_self p rest)
    have hrest := ih fun q hq => hg q (List.mem_cons_of_mem p hq)
    simp [selectablesOfPaths, hp, hrest]

/-- Claim C8: for every chainId whose coin type is already set for the
active keystore, `getKeyStoreBIP44Selectables` returns the empty list
regardless of the paths argument; otherwise it returns exactly one entry
per requested path, in the same order, each with the bech32 address derived
from that path's coinType under the chain's account prefix. -/
theorem get_key_store_bip44_selectables_spec (isSet : Bool)
    (ci : Except Err ChainInfo) (info : ChainInfo) (g : Nat → Except Err Key)
    (keyOf : Nat → Key) (enc : List Nat → String → String)
    (paths : List BIP44) (hci : ci = Except.ok info)
    (hg : ∀ p ∈ paths, g p.coinType = Except.ok (keyOf p.coinType)) :
    KeyRingService.getKeyStoreBIP44Selectables true ci g enc paths
      = Except.ok [] ∧
    KeyRingService.getKeyStoreBIP44Selectables false ci g enc paths
      = Except.ok (paths.map fun p =>
          { path := p,
            bech32Address :=
              enc (keyOf p.coinType).address info.bech32PrefixAccAddr }) := by
  constructor
  · rfl
  · simp [KeyRingService.getKeyStoreBIP44Selectables, hci,
      selectablesOfPaths_all_ok g keyOf enc info.bech32PrefixAccAddr paths hg]

/-- Witness for C8: with two concrete paths (coin types 118 and 529), the
coin-type-set case returns the empty list and the unset case returns one
entry per path, in order. -/
theorem get_key_store_bip44_selectables_spec_witness :
    KeyRingService.getKeyStoreBIP44Selectables true
        (Except.ok { bech32PrefixAccAddr := "cosmos", coinType := 118 })
        sampleGetKeyFromCoinType sampleEnc [samplePath118, samplePath529]
      = Except.ok [] ∧
    KeyRingService.getKeyStoreBIP44Selectables false
        (Except.ok { bech32PrefixAccAddr := "cosmos", coinType := 118 })
        sampleGetKeyFromCoinType sampleEnc [samplePath118, samplePath529]
      = Except.ok
          [{ path := samplePath118, bech32Address := "cosmos2" },
           { path := samplePath529, bech32Address := "cosmos2" }] := by
  have h := get_key_store_bip44_selectables_spec true
    (Except.ok { bech32PrefixAccAddr := "cosmos", coinType := 118 })
    { bech32PrefixAccAddr := "cosmos", coinType := 118 }
    sampleGetKeyFromCoinType sampleKeyOf sampleEnc
    [samplePath118, samplePath529] rfl
    (by
      intro p hp
      simp only [List.mem_cons, List.not_mem_nil, or_false] at hp
      rcases hp with h | h <;> subst h <;> rfl)
  exact ⟨h.1, h.2⟩

/-- Counterexample for C9: with a manual fee set but no fee currency
available, `getFeePrimitive` returns undefined rather than the manual fee,
so the fee-selection clause of the claim fails as stated. -/
theorem get_fee_primitive_counterexample :
    (FeeConfig.run [FeeOp.setManual sampleFee]).manualFee = some sampleFee ∧
    FeeConfig.getFeePrimitive [] sampleFeeOfType
        (FeeConfig.run [FeeOp.setManual sampleFee])
      = none := ⟨rfl, rfl⟩

/-- Helper: folding `FeeConfig` operations preserves mutual exclusion of
the fee type and the manual fee. -/
theorem feeConfig_foldl_exclusive (ops : List FeeOp) (s : FeeConfigState)
    (h : s.feeType = none ∨ s.manualFee = none) :
    (ops.foldl FeeConfig.applyOp s).feeType = none ∨
    (ops.foldl FeeConfig.applyOp s).manualFee = none := by
  induction ops generalizing s with
  | nil => simpa using h
  | cons op rest ih =>
    rw [List.foldl_cons]
    cases op with
    | setType ft => exact ih _ (Or.inr rfl)
    | setManual fee => exact ih _ (Or.inl rfl)

/-- Claim C9 (amended): after any sequence of operations at most one of the
fee type and the manual fee is defined; `setFeeType` sets the fee type and
clears the manual fee; `setManualFee` sets the manual fee and clears the
fee type; and when a fee currency exists `getFeePrimitive` returns the
manual fee if set, else the fee computed from the fee type if set, else
undefined — while with no fee currency it returns undefined even if a
manual fee or fee type is set. -/
theorem fee_config_invariant (ops : List FeeOp) (s : FeeConfigState)
    (ft : Option FeeType) (fee : CoinPrimitive) (fcs : List Currency)
    (gftp : FeeType → CoinPrimitive) :
    ((FeeConfig.run ops).feeType = none ∨
      (FeeConfig.run ops).manualFee = none) ∧
    FeeConfig.setFeeType s ft = { feeType := ft, manualFee := none } ∧
    FeeConfig.setManualFee s fee
      = { feeType := none, manualFee := some fee } ∧
    (fcs ≠ [] → ∀ f, (FeeConfig.run ops).manualFee = some f →
      FeeConfig.getFeePrimitive fcs gftp (FeeConfig.run ops) = some f) ∧
    (fcs ≠ [] → (FeeConfig.run ops).manualFee = none → ∀ t,
      (FeeConfig.run ops).feeType = some t →
      FeeConfig.getFeePrimitive fcs gftp (FeeConfig.run ops)
        = some (gftp t)) ∧
    (fcs ≠ [] → (FeeConfig.run ops).manualFee = none →
      (FeeConfig.run ops).feeType = none →
      FeeConfig.getFeePrimitive fcs gftp (FeeConfig.run ops) = none) ∧
    (fcs = [] → FeeConfig.getFeePrimitive fcs gftp (FeeConfig.run ops)
      = none) := by
  have hcur : ∀ c cs, FeeConfig.feeCurrency (c :: cs) = some c := fun _ _ => rfl
  refine ⟨?_, rfl, rfl, ?_, ?_, ?_, ?_⟩
  · exact feeConfig_foldl_exclusive ops FeeConfig.initial (Or.inl rfl)
  · intro hfcs f hf
    cases fcs with
    | nil => exact absurd rfl hfcs
    | cons c cs => simp [FeeConfig.getFeePrimitive, hcur, hf]
  · intro hfcs hmf t hft
    cases fcs with
    | nil => exact absurd rfl hfcs
    | cons c cs => simp [FeeConfig.getFeePrimitive, hcur, hmf, hft]
  · intro hfcs hmf hft
    cases fcs with
    | nil => exact absurd rfl hfcs
    | cons c cs => simp [FeeConfig.getFeePrimitive, hcur, hmf, hft]
  · intro hfcs
    subst hfcs
    rfl

/-- Witness for C9: after setting a fee type then a manual fee, only the
manual fee is defined, and with a fee currency available `getFeePrimitive`
returns exactly the manual fee. -/
theorem fee_config_invariant_witness :
    ((FeeConfig.run [FeeOp.setType (some FeeType.high),
        FeeOp.setManual sampleFee]).feeType = none ∨
      (FeeConfig.run [FeeOp.setType (some FeeType.high),
        FeeOp.setManual sampleFee]).manualFee = none) ∧
    FeeConfig.getFeePrimitive [sampleCurrency] sampleFeeOfType
        (FeeConfig.run [FeeOp.setType (some FeeType.high),
          FeeOp.setManual sampleFee])
      = some sampleFee := by
  have h := fee_config_invariant
    [FeeOp.setType (some FeeType.high), FeeOp.setManual sampleFee]
    FeeConfig.initial (some FeeType.high) sampleFee [sampleCurrency]
    sampleFeeOfType
  exact ⟨h.1, h.2.2.2.1 (by decide) sampleFee rfl⟩

/-- Claim C10: `broadcastMsgs` fails before fetching the account,
constructing or signing any transaction whenever the wallet status is not
Loaded or the message list is empty; and when broadcasting fails, `sendMsgs`
resets the `isSendingMsg` flag to false and rethrows the same error. -/
theorem broadcast_guard_and_send_reset (env : BroadcastEnv)
    (ws : WalletStatus) (chainId mode memo type : String) (msgs : List Msg)
    (fee : StdFee) (s : AccountState) (e : Err) (tr : List TxEvent) :
    (ws ≠ WalletStatus.Loaded →
      broadcastMsgs env ws chainId msgs fee memo mode
        = (Except.error Err.walletNotLoaded, [])) ∧
    (ws = WalletStatus.Loaded → msgs = [] →
      broadcastMsgs env ws chainId msgs fee memo mode
        = (Except.error Err.noMsgToSend, [])) ∧
    (broadcastMsgs env ws chainId msgs fee memo mode = (Except.error e, tr) →
      sendMsgs env ws chainId mode s type msgs fee memo
        = ({ isSendingMsg := none }, Except.error e, tr)) := by
  refine ⟨?_, ?_, ?_⟩
  · intro hws
    simp [broadcastMsgs, hws]
  · intro hws hm
    subst hws
    subst hm
    rfl
  · intro hb
    simp [sendMsgs, hb]

/-- Witness for C10: with the wallet still Loading, `broadcastMsgs` fails
with the not-loaded error and an empty pipeline trace, and `sendMsgs` ends
with `isSendingMsg` reset to false and the same error rethrown. -/
theorem broadcast_guard_and_send_reset_witness :
    broadcastMsgs sampleBroadcastEnv WalletStatus.Loading "cosmoshub-4"
        [sampleMsg] sampleStdFee "" "sync"
      = (Except.error Err.walletNotLoaded, []) ∧
    sendMsgs sampleBroadcastEnv WalletStatus.Loading "cosmoshub-4" "sync"
        { isSendingMsg := none } "send" [sampleMsg] sampleStdFee ""
      = ({ isSendingMsg := none }, Except.error Err.walletNotLoaded, []) := by
  have h := broadcast_guard_and_send_reset sampleBroadcastEnv
    WalletStatus.Loading "cosmoshub-4" "sync" "" "send" [sampleMsg]
    sampleStdFee { isSendingMsg := none } Err.walletNotLoaded []
  have hb := h.1 (by decide)
  exact ⟨hb, h.2.2 hb⟩

end Keplr
